import Mathlib

/-!
Verification of the Product Store REST service (`src/service/routes.py`).

The routing layer (`routes.py`) is embedded directly. The data-access layer
(`service.models`: `Product`, `Category` and the store operations) is not part
of the given sources, so it is modelled from the specification: an in-memory
list of products with an id counter, where `create` assigns the id.
-/

namespace ProductService

/-- Modelled from the spec: `Category` is a closed enumeration of string
names ("UNKNOWN/FOOD/CLOTHS/..."); `service.models` is not in the sources. -/
inductive Category where
  | UNKNOWN
  | CLOTHS
  | FOOD
  | HOUSEWARES
  | AUTOMOTIVE
  | TOOLS
  deriving DecidableEq, Repr

/-- The attribute name of each `Category` member, as used by
`getattr(Category, ...)` in the router. -/
def Category.name : Category → String
  | .UNKNOWN => "UNKNOWN"
  | .CLOTHS => "CLOTHS"
  | .FOOD => "FOOD"
  | .HOUSEWARES => "HOUSEWARES"
  | .AUTOMOTIVE => "AUTOMOTIVE"
  | .TOOLS => "TOOLS"

/-- All members of the enumeration. -/
def allCategories : List Category :=
  [.UNKNOWN, .CLOTHS, .FOOD, .HOUSEWARES, .AUTOMOTIVE, .TOOLS]

/-- Python's `str.upper()`, embedded as an executable character-wise map
(faithful on the ASCII member names the lookup compares against). -/
def pyUpper (s : String) : String :=
  ⟨s.data.map Char.toUpper⟩

/-- `getattr(Category, s.upper())` from `routes.py` line 114: upper-cases the
string and looks the result up among the enum members; a miss is an
uncaught `AttributeError` (modelled as `none`). -/
def categoryGetattr (s : String) : Option Category :=
  allCategories.find? (fun c => c.name == pyUpper s)

/-- Modelled from the spec: a persisted Product row. `price` is a decimal,
carried here as an integer number of minor units; no claim computes on it. -/
structure Product where
  id : Nat
  name : String
  description : String
  price : Int
  available : Bool
  category : Category
  deriving DecidableEq, Repr

/-- A JSON request body for create/update. `id` is optional: a client may or
may not include an id field in the body. -/
structure ProductData where
  id : Option Nat
  name : String
  description : String
  price : Int
  available : Bool
  category : Category
  deriving DecidableEq, Repr

/-- Modelled from the spec: `Product.deserialize` overwrites all mutable
fields from the JSON body. A client-supplied id in the body is the override
attempt the router must prevent, so the model applies it when present. -/
def Product.deserialize (p : Product) (d : ProductData) : Product :=
  { id := d.id.getD p.id
    name := d.name
    description := d.description
    price := d.price
    available := d.available
    category := d.category }

/-- Modelled from the spec: the relational data store, an ordered collection
of Product rows plus the counter from which `create` assigns ids. -/
structure Store where
  products : List Product
  nextId : Nat
  deriving DecidableEq, Repr

/-- Modelled from the spec: `Product.find(id)` returns the row with that id,
or None. -/
def Store.find (s : Store) (pid : Nat) : Option Product :=
  s.products.find? (fun p => p.id == pid)

/-- Modelled from the spec: `Product.all()`. -/
def Store.all (s : Store) : List Product :=
  s.products

/-- Modelled from the spec: `product.create()` persists a new row, the store
assigning the id. -/
def Store.create (s : Store) (d : ProductData) : Product × Store :=
  let p : Product :=
    { id := s.nextId
      name := d.name
      description := d.description
      price := d.price
      available := d.available
      category := d.category }
  (p, { products := s.products ++ [p], nextId := s.nextId + 1 })

/-- Modelled from the spec: `found.update()` persists the mutated record in
place of the row it was loaded from (identified by `origId`). -/
def Store.updateProduct (s : Store) (origId : Nat) (p : Product) : Store :=
  { s with products := s.products.map (fun q => if q.id == origId then p else q) }

/-- Modelled from the spec: `found.delete()` removes the row. -/
def Store.deleteProduct (s : Store) (pid : Nat) : Store :=
  { s with products := s.products.filter (fun q => q.id != pid) }

/-- Modelled from the spec: `Product.find_by_name(name)` (exact match). -/
def Store.find_by_name (s : Store) (n : String) : List Product :=
  s.products.filter (fun p => p.name == n)

/-- Modelled from the spec: `Product.find_by_category(category)`. -/
def Store.find_by_category (s : Store) (c : Category) : List Product :=
  s.products.filter (fun p => p.category == c)

/-- Modelled from the spec: `Product.find_by_availability(available)`. -/
def Store.find_by_availability (s : Store) (b : Bool) : List Product :=
  s.products.filter (fun p => p.available == b)

/-- The parts of the HTTP request the handlers inspect: the `Content-Type`
header (absent = `none`), the three query parameters of `GET /products`
(absent = `none`; present with empty value = `some ""`), and the JSON body
(`none` when the body is absent or not parseable as a product). -/
structure Request where
  contentType : Option String
  nameArg : Option String
  categoryArg : Option String
  availableArg : Option String
  body : Option ProductData
  deriving DecidableEq, Repr

/-- A response body: empty string, plain text message, a serialized product
or a list of serialized products. -/
inductive Body where
  | text (s : String)
  | product (p : Product)
  | products (ps : List Product)
  deriving DecidableEq, Repr

/-- A handler outcome: an HTTP response (status, body, optional Location
header), or an uncaught exception propagating to the framework. -/
inductive HResult where
  | resp (status : Nat) (body : Body) (location : Option String)
  | error
  deriving DecidableEq, Repr

/-- `abort(code, msg)`: an error response carrying a plain-text message. -/
def abortResp (code : Nat) (msg : String) : HResult :=
  HResult.resp code (Body.text msg) none

/-- Python truthiness of `request.args.get(k)`: `None` and the empty string
are falsy, every non-empty string is truthy. -/
def pyTruthy : Option String → Bool
  | none => false
  | some s => !s.isEmpty

/-- `bool(s)` on a Python string: true iff non-empty. -/
def pyBool (s : String) : Bool :=
  !s.isEmpty

/-- `check_content_type(content_type)` from `routes.py` lines 49-65: aborts
with 415 when the header is absent or differs from the expected value,
otherwise returns (`none` = no abort). -/
def check_content_type (content_type : String) (req : Request) : Option HResult :=
  match req.contentType with
  | none => some (abortResp 415 ("Content-Type must be " ++ content_type))
  | some ct =>
    if ct == content_type then none
    else some (abortResp 415 ("Content-Type must be " ++ content_type))

/-- `create_products` from `routes.py` lines 71-94: content-type guard, then
deserialize the body into a new product, persist it, return 201 with the
serialized product and the placeholder `Location: /` header. A missing or
unparseable body after the guard is a delegated framework error. -/
def create_products (req : Request) (store : Store) : HResult × Store :=
  match check_content_type "application/json" req with
  | some r => (r, store)
  | none =>
    match req.body with
    | none => (HResult.error, store)
    | some d =>
      let (product, store') := store.create d
      (HResult.resp 201 (Body.product product) (some "/"), store')

/-- `get_all_products` from `routes.py` lines 101-125: at most one filter,
by precedence name, then category (via `getattr(Category, arg.upper())`,
uncaught error on a miss), then availability (`bool(arg)`), else all. -/
def get_all_products (req : Request) (store : Store) : HResult × Store :=
  let result :=
    if pyTruthy req.nameArg then
      HResult.resp 200 (Body.products (store.find_by_name (req.nameArg.getD ""))) none
    else if pyTruthy req.categoryArg then
      match categoryGetattr (req.categoryArg.getD "") with
      | none => HResult.error
      | some c => HResult.resp 200 (Body.products (store.find_by_category c)) none
    else if pyTruthy req.availableArg then
      HResult.resp 200
        (Body.products (store.find_by_availability (pyBool (req.availableArg.getD "")))) none
    else
      HResult.resp 200 (Body.products store.all) none
  (result, store)

/-- `get_product` from `routes.py` lines 131-139: 404 with a message naming
the id when absent, else 200 with the serialized product. -/
def get_product (product_id : Nat) (store : Store) : HResult × Store :=
  match store.find product_id with
  | none =>
    (abortResp 404 ("Product with id [" ++ toString product_id ++ "] not found"), store)
  | some found => (HResult.resp 200 (Body.product found) none, store)

/-- `update_product` from `routes.py` lines 145-160: content-type guard,
lookup (404 when absent), deserialize the body onto the record, force the
id back to the path parameter, persist, return 200 with the result. -/
def update_product (product_id : Nat) (req : Request) (store : Store) : HResult × Store :=
  match check_content_type "application/json" req with
  | some r => (r, store)
  | none =>
    match store.find product_id with
    | none =>
      (abortResp 404 ("Product with id [" ++ toString product_id ++ "] not found"), store)
    | some found =>
      match req.body with
      | none => (HResult.error, store)
      | some d =>
        let updated := { found.deserialize d with id := product_id }
        (HResult.resp 200 (Body.product updated) none,
          store.updateProduct found.id updated)

/-- `delete_product` from `routes.py` lines 167-178: lookup (404 when absent,
message naming the id under `product_id`), else delete and return 204 with
an empty body. -/
def delete_product (product_id : Nat) (store : Store) : HResult × Store :=
  match store.find product_id with
  | none =>
    (abortResp 404 ("Product with product_id [" ++ toString product_id ++ "] not found"),
      store)
  | some found =>
    (HResult.resp 204 (Body.text "") none, store.deleteProduct found.id)

/-! ## Helper lemmas -/

/-- A non-empty string is not `isEmpty`. -/
lemma isEmpty_false_of_ne (v : String) (hv : v ≠ "") : v.isEmpty = false := by
  cases he : v.isEmpty
  · rfl
  · exact absurd ((String.isEmpty_iff v).mp he) hv

/-- A present, non-empty query parameter is Python-truthy. -/
lemma pyTruthy_some_of_ne (v : String) (hv : v ≠ "") :
    pyTruthy (some v) = true := by
  simp [pyTruthy, isEmpty_false_of_ne v hv]

/-- `bool(v)` is true on a non-empty string. -/
lemma pyBool_of_ne (v : String) (hv : v ≠ "") : pyBool v = true := by
  simp [pyBool, isEmpty_false_of_ne v hv]

/-- Looking up a member of `allCategories` by its own name finds it. -/
lemma find?_name_self (c : Category) :
    allCategories.find? (fun x => x.name == c.name) = some c := by
  cases c <;> rfl

/-- After filtering out every row with id `pid`, a lookup by `pid` misses. -/
lemma find?_id_filter_ne (l : List Product) (pid : Nat) :
    (l.filter (fun q => q.id != pid)).find? (fun q => q.id == pid) = none := by
  induction l with
  | nil => rfl
  | cons q t ih =>
    by_cases h : q.id = pid
    · simp [List.filter_cons, h, ih]
    · simp [List.filter_cons, h, List.find?_cons, ih]

/-- Replacing every row with id `pid` by `u` (itself carrying id `pid`) makes
a lookup by `pid` return `u`, provided some row with id `pid` was present. -/
lemma find?_id_map_replace (l : List Product) (pid : Nat) (u : Product)
    (hu : u.id = pid) (h : ∃ q ∈ l, q.id = pid) :
    (l.map (fun q => if q.id == pid then u else q)).find? (fun q => q.id == pid) =
      some u := by
  induction l with
  | nil => simp at h
  | cons q t ih =>
    by_cases hq : q.id = pid
    · simp [List.find?_cons, hq, hu]
    · have h' : ∃ r ∈ t, r.id = pid := by
        rcases h with ⟨r, hr, hrid⟩
        rcases List.mem_cons.mp hr with hhead | htail
        · exact absurd (hhead ▸ hrid) hq
        · exact ⟨r, htail, hrid⟩
      simpa [List.find?_cons, hq] using ih h'

/-! ## Claim theorems -/

/-- Claim C1: for POST /products and PUT /products/{id}, if the Content-Type
header is absent or is any string other than "application/json", the handler
aborts with HTTP 415 and a descriptive message before the body is parsed
(the result holds for every body, parseable or not), and the store is
unchanged, so no product is created. -/
theorem post_put_bad_content_type_aborts_415
    (req : Request) (store : Store) (product_id : Nat)
    (h : ∀ ct, req.contentType = some ct → ct ≠ "application/json") :
    create_products req store =
      (abortResp 415 "Content-Type must be application/json", store) ∧
    update_product product_id req store =
      (abortResp 415 "Content-Type must be application/json", store) := by
  have hguard : check_content_type "application/json" req =
      some (abortResp 415 "Content-Type must be application/json") := by
    unfold check_content_type
    cases hct : req.contentType with
    | none => rfl
    | some ct =>
      have hne := h ct hct
      simp [hne]
  constructor
  · unfold create_products
    rw [hguard]
  · unfold update_product
    rw [hguard]

/-- Witness for C1 at Content-Type: text/plain on an empty store. -/
theorem post_put_bad_content_type_aborts_415_witness :
    create_products ⟨some "text/plain", none, none, none, none⟩ ⟨[], 1⟩ =
      (abortResp 415 "Content-Type must be application/json", ⟨[], 1⟩) ∧
    update_product 5 ⟨some "text/plain", none, none, none, none⟩ ⟨[], 1⟩ =
      (abortResp 415 "Content-Type must be application/json", ⟨[], 1⟩) :=
  post_put_bad_content_type_aborts_415 _ _ 5
    (by intro ct hct; cases hct; decide)

/-- Claim C10: on PUT /products/{id} the content-type guard runs before the
existence lookup: with a bad or absent Content-Type the response is 415 even
when no product with that id exists, and the store is unchanged. -/
theorem put_guard_before_lookup (req : Request) (store : Store) (product_id : Nat)
    (_hfind : store.find product_id = none)
    (h : ∀ ct, req.contentType = some ct → ct ≠ "application/json") :
    update_product product_id req store =
      (abortResp 415 "Content-Type must be application/json", store) := by
  have hguard : check_content_type "application/json" req =
      some (abortResp 415 "Content-Type must be application/json") := by
    unfold check_content_type
    cases hct : req.contentType with
    | none => rfl
    | some ct =>
      have hne := h ct hct
      simp [hne]
  unfold update_product
  rw [hguard]

/-- Witness for C10: PUT with no Content-Type on an empty store (id 7 absent)
still yields 415. -/
theorem put_guard_before_lookup_witness :
    update_product 7 ⟨none, none, none, none, none⟩ ⟨[], 1⟩ =
      (abortResp 415 "Content-Type must be application/json", ⟨[], 1⟩) :=
  put_guard_before_lookup ⟨none, none, none, none, none⟩ ⟨[], 1⟩ 7 rfl
    (by intro ct hct; cases hct)

/-- Claim C9: a query parameter present with an empty string value behaves
exactly like an absent one for each of the three filters, and with all three
empty-valued the handler returns all products with HTTP 200. -/
theorem empty_query_param_treated_as_absent (req : Request) (store : Store) :
    get_all_products { req with nameArg := some "" } store =
      get_all_products { req with nameArg := none } store ∧
    get_all_products { req with categoryArg := some "" } store =
      get_all_products { req with categoryArg := none } store ∧
    get_all_products { req with availableArg := some "" } store =
      get_all_products { req with availableArg := none } store ∧
    get_all_products
        { req with nameArg := some ""
                 , categoryArg := some ""
                 , availableArg := some "" } store =
      (HResult.resp 200 (Body.products store.all) none, store) := by
  have hem : "".isEmpty = true := rfl
  refine ⟨?_, ?_, ?_, ?_⟩ <;>
    simp [get_all_products, pyTruthy, hem]

/-- Claim C3: with a non-empty `available` query value (and no name or
category filter), the handler always filters with availability = true,
whatever the string's content — including the literal "false". -/
theorem available_filter_ignores_value (req : Request) (store : Store) (v : String)
    (hn : req.nameArg = none) (hc : req.categoryArg = none)
    (ha : req.availableArg = some v) (hv : v ≠ "") :
    get_all_products req store =
      (HResult.resp 200 (Body.products (store.find_by_availability true)) none,
        store) := by
  simp [get_all_products, pyTruthy, pyBool, hn, hc, ha,
    isEmpty_false_of_ne v hv]

/-- Witness for C3 at the literal value "false" on an empty store. -/
theorem available_filter_ignores_value_witness :
    get_all_products ⟨none, none, none, some "false", none⟩ ⟨[], 1⟩ =
      (HResult.resp 200
        (Body.products (Store.find_by_availability ⟨[], 1⟩ true)) none,
        ⟨[], 1⟩) :=
  available_filter_ignores_value _ _ "false" rfl rfl rfl (by decide)

/-- Claim C4: with a `category` filter (and no name filter), an unknown
category name (after upper-casing) yields an uncaught server error, not a
4xx response; a known name resolves case-insensitively (any string whose
upper-casing is a member's name selects that member's filter). -/
theorem category_filter_resolution (req : Request) (store : Store) (v : String)
    (hn : pyTruthy req.nameArg = false) (hc : req.categoryArg = some v)
    (hv : v ≠ "") :
    (categoryGetattr v = none →
      get_all_products req store = (HResult.error, store)) ∧
    (∀ c : Category, pyUpper v = c.name →
      get_all_products req store =
        (HResult.resp 200 (Body.products (store.find_by_category c)) none,
          store)) := by
  constructor
  · intro hmiss
    simp [get_all_products, hn, hc, pyTruthy_some_of_ne v hv, hmiss]
  · intro c hname
    have hres : categoryGetattr v = some c := by
      unfold categoryGetattr
      rw [hname]
      exact find?_name_self c
    simp [get_all_products, hn, hc, pyTruthy_some_of_ne v hv, hres]

/-- Witness for C4: category "toys" is unknown and produces the unhandled
error on an empty store. -/
theorem category_filter_resolution_witness :
    get_all_products ⟨none, none, some "toys", none, none⟩ ⟨[], 1⟩ =
      (HResult.error, ⟨[], 1⟩) :=
  (category_filter_resolution ⟨none, none, some "toys", none, none⟩ ⟨[], 1⟩
    "toys" rfl rfl (by decide)).1 (by decide)

/-- Claim C5: GET /products applies at most one filter, with precedence
name over category over available; with no non-empty parameter it returns
all products with HTTP 200, leaving the store unchanged in every case. -/
theorem list_filter_precedence (req : Request) (store : Store) :
    (∀ v, req.nameArg = some v → v ≠ "" →
      get_all_products req store =
        (HResult.resp 200 (Body.products (store.find_by_name v)) none, store)) ∧
    (pyTruthy req.nameArg = false → ∀ v, req.categoryArg = some v → v ≠ "" →
      get_all_products req store =
        ((match categoryGetattr v with
          | none => HResult.error
          | some c =>
            HResult.resp 200 (Body.products (store.find_by_category c)) none),
          store)) ∧
    (pyTruthy req.nameArg = false → pyTruthy req.categoryArg = false →
      ∀ v, req.availableArg = some v → v ≠ "" →
      get_all_products req store =
        (HResult.resp 200 (Body.products (store.find_by_availability true)) none,
          store)) ∧
    (pyTruthy req.nameArg = false → pyTruthy req.categoryArg = false →
      pyTruthy req.availableArg = false →
      get_all_products req store =
        (HResult.resp 200 (Body.products store.all) none, store)) := by
  refine ⟨?_, ?_, ?_, ?_⟩
  · intro v hv hne
    simp [get_all_products, hv, pyTruthy_some_of_ne v hne]
  · intro hn v hv hne
    simp [get_all_products, hn, hv, pyTruthy_some_of_ne v hne]
  · intro hn hcat v hv hne
    simp [get_all_products, hn, hcat, hv, pyTruthy_some_of_ne v hne,
      pyBool_of_ne v hne]
  · intro hn hcat hav
    simp [get_all_products, hn, hcat, hav]

/-- Witness for C5: with all three parameters non-empty, the name filter
alone is applied. -/
theorem list_filter_precedence_witness :
    get_all_products ⟨none, some "apple", some "food", some "false", none⟩
        ⟨[], 1⟩ =
      (HResult.resp 200 (Body.products (Store.find_by_name ⟨[], 1⟩ "apple")) none,
        ⟨[], 1⟩) :=
  (list_filter_precedence ⟨none, some "apple", some "food", some "false", none⟩
    ⟨[], 1⟩).1 "apple" rfl (by decide)

/-- Claim C6: DELETE /products/{id} on an absent id aborts with 404; on an
existing id it returns 204 with an empty body, the id no longer resolves in
the store, and a subsequent GET /products/{id} yields 404. -/
theorem delete_then_get_404 (product_id : Nat) (store : Store) :
    (store.find product_id = none →
      delete_product product_id store =
        (abortResp 404
          ("Product with product_id [" ++ toString product_id ++ "] not found"),
          store)) ∧
    (∀ found, store.find product_id = some found →
      (delete_product product_id store).1 = HResult.resp 204 (Body.text "") none ∧
      ((delete_product product_id store).2).find product_id = none ∧
      get_product product_id (delete_product product_id store).2 =
        (abortResp 404 ("Product with id [" ++ toString product_id ++ "] not found"),
          (delete_product product_id store).2)) := by
  constructor
  · intro hmiss
    unfold delete_product
    rw [hmiss]
  · intro found hfind
    have hid : found.id = product_id := by
      have h := List.find?_some hfind
      simpa using h
    have hdel : delete_product product_id store =
        (HResult.resp 204 (Body.text "") none, store.deleteProduct found.id) := by
      unfold delete_product
      rw [hfind]
    have hmiss : (store.deleteProduct found.id).find product_id = none := by
      unfold Store.deleteProduct Store.find
      rw [hid]
      exact find?_id_filter_ne store.products product_id
    refine ⟨by rw [hdel], by rw [hdel]; exact hmiss, ?_⟩
    rw [hdel]
    unfold get_product
    rw [hmiss]

/-- Witness for C6: deleting the single product with id 1 returns 204, the
id stops resolving, and the follow-up GET answers 404. -/
theorem delete_then_get_404_witness :
    (delete_product 1 ⟨[⟨1, "hat", "a hat", 999, true, Category.CLOTHS⟩], 2⟩).1 =
      HResult.resp 204 (Body.text "") none ∧
    ((delete_product 1
        ⟨[⟨1, "hat", "a hat", 999, true, Category.CLOTHS⟩], 2⟩).2).find 1 = none ∧
    get_product 1
        (delete_product 1 ⟨[⟨1, "hat", "a hat", 999, true, Category.CLOTHS⟩], 2⟩).2 =
      (abortResp 404 ("Product with id [" ++ toString 1 ++ "] not found"),
        (delete_product 1
          ⟨[⟨1, "hat", "a hat", 999, true, Category.CLOTHS⟩], 2⟩).2) :=
  (delete_then_get_404 1 ⟨[⟨1, "hat", "a hat", 999, true, Category.CLOTHS⟩], 2⟩).2
    ⟨1, "hat", "a hat", 999, true, Category.CLOTHS⟩ rfl

/-- Claim C7: GET /products/{id} aborts with 404 and a message containing the
id when no product with that id exists, and returns 200 with the serialized
product otherwise; the store is unchanged either way. -/
theorem get_product_behavior (product_id : Nat) (store : Store) :
    (store.find product_id = none →
      get_product product_id store =
        (abortResp 404 ("Product with id [" ++ toString product_id ++ "] not found"),
          store) ∧
      ∃ a b, ("Product with id [" ++ toString product_id ++ "] not found") =
        a ++ toString product_id ++ b) ∧
    (∀ found, store.find product_id = some found →
      get_product product_id store =
        (HResult.resp 200 (Body.product found) none, store)) := by
  constructor
  · intro hmiss
    constructor
    · unfold get_product
      rw [hmiss]
    · exact ⟨"Product with id [", "] not found", rfl⟩
  · intro found hfind
    unfold get_product
    rw [hfind]

/-- Witness for C7 at id 999999 on an empty store. -/
theorem get_product_behavior_witness :
    get_product 999999 ⟨[], 1⟩ =
      (abortResp 404 ("Product with id [" ++ toString 999999 ++ "] not found"),
        ⟨[], 1⟩) ∧
    ∃ a b, ("Product with id [" ++ toString 999999 ++ "] not found") =
      a ++ toString 999999 ++ b :=
  (get_product_behavior 999999 ⟨[], 1⟩).1 rfl

/-- Claim C2: PUT /products/{id} on an existing id with JSON content type
replaces all mutable fields by the body's values, forces the stored id to
the path parameter regardless of any id in the body (the body's optional id
is arbitrary here), returns 200 with the serialized result, and afterwards
the store resolves the path id to exactly that product. -/
theorem update_forces_path_id (product_id : Nat) (req : Request) (store : Store)
    (d : ProductData) (found : Product)
    (hct : req.contentType = some "application/json")
    (hfind : store.find product_id = some found)
    (hbody : req.body = some d) :
    update_product product_id req store =
      (HResult.resp 200
        (Body.product
          { id := product_id
            name := d.name
            description := d.description
            price := d.price
            available := d.available
            category := d.category }) none,
        store.updateProduct product_id
          { id := product_id
            name := d.name
            description := d.description
            price := d.price
            available := d.available
            category := d.category }) ∧
    (store.updateProduct product_id
        { id := product_id
          name := d.name
          description := d.description
          price := d.price
          available := d.available
          category := d.category }).find product_id =
      some
        { id := product_id
          name := d.name
          description := d.description
          price := d.price
          available := d.available
          category := d.category } := by
  have hid : found.id = product_id := by
    have h := List.find?_some hfind
    simpa using h
  have hmem : found ∈ store.products := List.mem_of_find?_eq_some hfind
  have hguard : check_content_type "application/json" req = none := by
    simp [check_content_type, hct]
  constructor
  · simp [update_product, hguard, hfind, hbody, Product.deserialize, hid]
  · exact find?_id_map_replace store.products product_id _ rfl ⟨found, hmem, hid⟩

/-- Witness for C2: updating product 1 with a body that claims id 42 stores
the body's fields under id 1, and id 1 resolves to the updated product. -/
theorem update_forces_path_id_witness :
    update_product 1
        ⟨some "application/json", none, none, none,
          some ⟨some 42, "pen", "blue pen", 150, true, Category.TOOLS⟩⟩
        ⟨[⟨1, "hat", "a hat", 999, true, Category.CLOTHS⟩], 2⟩ =
      (HResult.resp 200
        (Body.product ⟨1, "pen", "blue pen", 150, true, Category.TOOLS⟩) none,
        Store.updateProduct ⟨[⟨1, "hat", "a hat", 999, true, Category.CLOTHS⟩], 2⟩ 1
          ⟨1, "pen", "blue pen", 150, true, Category.TOOLS⟩) ∧
    (Store.updateProduct ⟨[⟨1, "hat", "a hat", 999, true, Category.CLOTHS⟩], 2⟩ 1
        ⟨1, "pen", "blue pen", 150, true, Category.TOOLS⟩).find 1 =
      some ⟨1, "pen", "blue pen", 150, true, Category.TOOLS⟩ :=
  update_forces_path_id 1
    ⟨some "application/json", none, none, none,
      some ⟨some 42, "pen", "blue pen", 150, true, Category.TOOLS⟩⟩
    ⟨[⟨1, "hat", "a hat", 999, true, Category.CLOTHS⟩], 2⟩
    ⟨some 42, "pen", "blue pen", 150, true, Category.TOOLS⟩
    ⟨1, "hat", "a hat", 999, true, Category.CLOTHS⟩ rfl rfl rfl

/-- Claim C8: POST /products with JSON content type and a parseable body
creates the product with the store-assigned id, appends it to the store,
and returns 201 with the serialized product and the placeholder
Location header "/". -/
theorem create_assigns_id_and_placeholder_location
    (req : Request) (store : Store) (d : ProductData)
    (hct : req.contentType = some "application/json")
    (hbody : req.body = some d) :
    create_products req store =
      (HResult.resp 201
        (Body.product
          { id := store.nextId
            name := d.name
            description := d.description
            price := d.price
            available := d.available
            category := d.category }) (some "/"),
        { products := store.products ++
            [{ id := store.nextId
               name := d.name
               description := d.description
               price := d.price
               available := d.available
               category := d.category }]
          nextId := store.nextId + 1 }) := by
  have hguard : check_content_type "application/json" req = none := by
    simp [check_content_type, hct]
  simp [create_products, hguard, hbody, Store.create]

/-- Witness for C8: creating a product on a store with next id 7 stores it
under id 7 and answers 201 with Location "/". -/
theorem create_assigns_id_and_placeholder_location_witness :
    create_products
        ⟨some "application/json", none, none, none,
          some ⟨none, "pen", "blue pen", 150, true, Category.TOOLS⟩⟩
        ⟨[], 7⟩ =
      (HResult.resp 201
        (Body.product ⟨7, "pen", "blue pen", 150, true, Category.TOOLS⟩)
        (some "/"),
        ⟨[⟨7, "pen", "blue pen", 150, true, Category.TOOLS⟩], 8⟩) :=
  create_assigns_id_and_placeholder_location
    ⟨some "application/json", none, none, none,
      some ⟨none, "pen", "blue pen", 150, true, Category.TOOLS⟩⟩
    ⟨[], 7⟩ ⟨none, "pen", "blue pen", 150, true, Category.TOOLS⟩ rfl rfl

end ProductService
